import Mathlib

/-!
Verification of the ESP32 balloon-telemetry core (`src/ESP32_Telemetry.ino`).

Modelling conventions (shallow embedding):
* C/JS floating-point scalars are modelled as `ℚ`; an absent reading
  (`NAN` on the device, `NaN`/`null` on the web client) is `Option.none`.
* In the browser script a number that may be non-finite is modelled by
  `JSNum`; every non-finite value (`NaN`, `±Infinity`) is collapsed into
  `JSNum.nan`, which is faithful because the page only ever inspects such
  values through `Number.isFinite`.
* `millis()` returns `uint32_t`; waveform functions take the wrapped
  counter value as a `ℕ`.
-/

namespace ESP32Telemetry

/-- `c2f` from the sketch: Celsius to Fahrenheit, `c * 9/5 + 32`. -/
def c2f (c : ℚ) : ℚ := c * 9 / 5 + 32

/-- `scalePressureToHectoPascal` from the sketch: raw pressures above 2000 are
assumed Pa and divided by 100, below 50 assumed kPa and multiplied by 100,
otherwise passed through as hPa. -/
def scalePressureToHectoPascal (raw : ℚ) : ℚ :=
  if raw > 2000 then raw / 100
  else if raw < 50 then raw * 100
  else raw

/-- The LED modes of the sketch (`LED_OFF`, `LED_SOLID`, `LED_BLINK_SLOW`,
`LED_BLINK_FAST`, `LED_DOUBLE`). -/
inductive LedMode where
  | off
  | solid
  | blinkSlow
  | blinkFast
  | double
deriving DecidableEq

/-- The level computed by `serviceReadyLed` for a mode at millis value `now`.
`x & 1` on an unsigned value is written `x % 2`; the slow branch uses
`period = 1000`, the fast branch `period = 100`, and the double-pulse branch
a 1200 ms cycle with pulses on `[0,120)` and `[240,360)`. -/
def serviceReadyLedLevel (mode : LedMode) (now : ℕ) : Bool :=
  match mode with
  | .off => false
  | .solid => true
  | .blinkSlow => decide ((now / (1000 / 2)) % 2 = 1)
  | .blinkFast => decide ((now / (100 / 2)) % 2 = 1)
  | .double =>
      decide (now % 1200 < 120 ∨ (240 ≤ now % 1200 ∧ now % 1200 < 360))

/-- `OVERHEAT_ON_F` from the sketch. -/
def OVERHEAT_ON_F : ℚ := 200

/-- `OVERHEAT_OFF_F` from the sketch. -/
def OVERHEAT_OFF_F : ℚ := 195

/-- One step of the overheat hysteresis in `loop`, fed a valid envelope
temperature in °F: enter the overheated state at `envF ≥ OVERHEAT_ON_F`,
leave it at `envF ≤ OVERHEAT_OFF_F`, otherwise keep the current state. -/
def overheatStep (g_overheat : Bool) (envF : ℚ) : Bool :=
  if g_overheat = false ∧ OVERHEAT_ON_F ≤ envF then true
  else if g_overheat = true ∧ envF ≤ OVERHEAT_OFF_F then false
  else g_overheat

/-- The device-side telemetry store: the `s_*` globals of the sketch. `none`
models `NAN` (never observed / last read invalid). -/
structure SensorStore where
  alt_m : Option ℚ
  mplTempC : Option ℚ
  pres_hPa : Option ℚ
  dhtTempC : Option ℚ
  dhtHum : Option ℚ
  envObjC : Option ℚ
deriving DecidableEq

/-- `haveDht` in `buildTelemetryJson`: the DHT temperature is non-NaN. -/
def haveDht (st : SensorStore) : Bool := st.dhtTempC.isSome

/-- `ambC` in `buildTelemetryJson`: DHT temperature if valid, else the MPL
temperature. -/
def ambC (st : SensorStore) : Option ℚ :=
  if haveDht st then st.dhtTempC else st.mplTempC

/-- `ambSrc` in `buildTelemetryJson`: provenance tag of the ambient value. -/
def ambSrc (st : SensorStore) : String :=
  if haveDht st then "DHT" else "MPL"

/-- Rounding to `d` decimal places, as Arduino `String(x, d)` renders a
float. -/
def roundTo (d : ℕ) (q : ℚ) : ℚ := (round (q * 10 ^ d) : ℤ) / 10 ^ d

/-- A value of the flat JSON wire record: the literal `null`, a numeric
rendered with a fixed decimal count, a string, or the integer timestamp. -/
inductive JVal where
  | null
  | fixed (value : ℚ) (decimals : ℕ)
  | str (s : String)
  | int (n : ℕ)
deriving DecidableEq

/-- Emission of one optional numeric field: `null` when absent, otherwise the
value rounded to `d` decimals (`isnan(x) ? "null" : String(x, d)`). -/
def jnum (d : ℕ) (x : Option ℚ) : JVal :=
  match x with
  | none => .null
  | some v => .fixed (roundTo d v) d

/-- `buildTelemetryJson` from the sketch, as the association list of emitted
keys and values; `now` is the `millis()` value, truncated to `uint32_t`. -/
def buildTelemetryJson (st : SensorStore) (now : ℕ) : List (String × JVal) :=
  [("envelopeTempF", jnum 1 (st.envObjC.map c2f)),
   ("ambientTempF", jnum 1 ((ambC st).map c2f)),
   ("humidityPct", jnum 0 st.dhtHum),
   ("pressurehPa", jnum 1 st.pres_hPa),
   ("altitudeM", jnum 1 st.alt_m),
   ("ambientSource", .str (ambSrc st)),
   ("timestamp", .int (now % 2 ^ 32))]

/-- Outcome of one `readDhtOnce` attempt: the temperature and humidity the
driver returned, `none` for NaN. -/
structure DhtAttempt where
  tC : Option ℚ
  rh : Option ℚ
deriving DecidableEq

/-- The validity test of `readDhtOnce`:
`!isnan(tC) && !isnan(rh) && rh >= 0.0f && rh <= 100.0f`. -/
def readDhtOnceOk (a : DhtAttempt) : Bool :=
  a.tC.isSome &&
    (match a.rh with
     | none => false
     | some h => decide (0 ≤ h) && decide (h ≤ 100))

/-- The DHT retry loop in `loop`: up to 3 attempts, the first valid attempt's
pair overwrites the stored `(s_dhtTempC, s_dhtHum)`, otherwise the stored
pair is kept. `attempts i` is the outcome the driver would deliver on the
`i`-th attempt. -/
def dhtPoll (attempts : ℕ → DhtAttempt) (stored : Option ℚ × Option ℚ) :
    Option ℚ × Option ℚ :=
  match (List.range 3).find? (fun i => readDhtOnceOk (attempts i)) with
  | some i => ((attempts i).tC, (attempts i).rh)
  | none => stored

/-- One sample of the browser-side temperature history (`{ t, ambF, envF }`);
`t` is a `Date.now()` millisecond stamp, `none` models a NaN temperature. -/
structure HistSample where
  t : ℤ
  ambF : Option ℚ
  envF : Option ℚ
deriving DecidableEq

/-- `pushTempSample` from the page script: append the new sample, then shift
samples off the front while the oldest one is strictly older than
`ts - tempWindowMs`. -/
def pushTempSample (tempHist : List HistSample) (ts : ℤ)
    (ambF envF : Option ℚ) (tempWindowMs : ℤ) : List HistSample :=
  let appended := tempHist ++ [⟨ts, ambF, envF⟩]
  appended.dropWhile (fun s => decide (s.t < ts - tempWindowMs))

/-- The page-script state touched by `updateTelemetry` and `resetFlight`:
`state.altitudeM` / `state.timestamp` plus the module-level `verticalSpeed`,
`initialAlt` and `flightStartMs`. -/
structure ClientState where
  altitudeM : Option ℚ
  timestamp : ℚ
  verticalSpeed : ℚ
  initialAlt : Option ℚ
  flightStartMs : Option ℚ
deriving DecidableEq

/-- The fields of one received `/data.json` packet that `updateTelemetry`
reads for altitude tracking; `none` models a `null`/NaN JSON value. -/
structure Packet where
  altitudeM : Option ℚ
  timestamp : Option ℚ
deriving DecidableEq

/-- JavaScript `Number(x) || d`: `NaN`/`null` and `0` are falsy and give the
default, any other number passes through. -/
def jsOrNum (x : Option ℚ) (d : ℚ) : ℚ :=
  match x with
  | none => d
  | some v => if v = 0 then d else v

/-- `updateTelemetry` from the page script (the altitude / vertical-speed /
baseline part): resolve the packet timestamp (`Number(packet.timestamp) ||
Date.now()`), overwrite the stored altitude and timestamp, capture the
first valid altitude as `initialAlt`, and exponentially smooth the vertical
speed only when the previous and the new altitude are both finite and
`dt > 0`. -/
def updateTelemetry (st : ClientState) (pkt : Packet) (nowMs : ℚ) :
    ClientState :=
  let ts := jsOrNum pkt.timestamp nowMs
  let prevAlt := st.altitudeM
  let prevTs := st.timestamp
  let newAlt := pkt.altitudeM
  let newInitial :=
    if st.initialAlt = none ∧ newAlt.isSome then newAlt else st.initialAlt
  let newVs :=
    match prevAlt, newAlt with
    | some pa, some a =>
        let dt := (ts - prevTs) / 1000
        if 0 < dt then
          0.7 * st.verticalSpeed + 0.3 * ((a - pa) / dt)
        else st.verticalSpeed
    | _, _ => st.verticalSpeed
  ⟨newAlt, ts, newVs, newInitial, st.flightStartMs⟩

/-- `resetFlight` from the page script: baseline to the current altitude when
finite and to `null` otherwise, vertical speed to 0, flight timer restarted
at `Date.now()`. -/
def resetFlight (st : ClientState) (nowMs : ℚ) : ClientState :=
  let newInitial := if st.altitudeM.isSome then st.altitudeM else none
  ⟨st.altitudeM, st.timestamp, 0, newInitial, some nowMs⟩

/-- A JavaScript number as the lift pipeline observes it: a finite rational,
or `nan` standing for every non-finite value (`NaN`, `±Infinity`) — the
page script only distinguishes these through `Number.isFinite`. -/
inductive JSNum where
  | num (q : ℚ)
  | nan
deriving DecidableEq

/-- Subtraction on JS numbers; non-finite operands propagate. -/
def jsSub : JSNum → JSNum → JSNum
  | .num a, .num b => .num (a - b)
  | _, _ => .nan

/-- Multiplication on JS numbers; non-finite operands propagate. -/
def jsMul : JSNum → JSNum → JSNum
  | .num a, .num b => .num (a * b)
  | _, _ => .nan

/-- Division on JS numbers; a zero divisor yields a non-finite value
(`Infinity`/`NaN` in JS, both collapsed into `nan` here). -/
def jsDiv : JSNum → JSNum → JSNum
  | .num a, .num b => if b = 0 then .nan else .num (a / b)
  | _, _ => .nan

/-- JavaScript `Number(x) || d` on a possibly non-finite operand. -/
def jsOr (x : JSNum) (d : ℚ) : ℚ :=
  match x with
  | .nan => d
  | .num v => if v = 0 then d else v

/-- `R = 287.058` J/(kg·K) from the page script. -/
def Rconst : ℚ := 287.058

/-- `G = 9.80665` m/s² from the page script. -/
def Gconst : ℚ := 9.80665

/-- `f2c` from the page script: Fahrenheit to Celsius. -/
def f2c (f : ℚ) : ℚ := (f - 32) * 5 / 9

/-- `c2k` from the page script: Celsius to Kelvin. -/
def c2k (c : ℚ) : ℚ := c + 273.15

/-- `densityAir` from the page script:
`P = (Number(pressureHpa) || 1013.25) * 100`,
`T = c2k(f2c(Number(tempF) || 20))`, result `P / (R·T)`. Absent inputs are
replaced by the defaults before the ideal-gas relation is applied. -/
def densityAir (pressureHpa tempF : JSNum) : JSNum :=
  jsDiv (.num ((jsOr pressureHpa 1013.25) * 100))
    (.num (Rconst * c2k (f2c (jsOr tempF 20))))

/-- `computeLift` from the page script; `VOLUME_M3` is the page-global sphere
volume recomputed from the envelope diameter. Returns
`(newtons, pounds-force)`. -/
def computeLift (ambF envF pressureHpa : JSNum) (VOLUME_M3 : ℚ) :
    JSNum × JSNum :=
  let rhoOutVal := densityAir pressureHpa ambF
  let rhoInVal := densityAir pressureHpa envF
  let L := jsMul (jsMul (jsSub rhoOutVal rhoInVal) (.num VOLUME_M3))
    (.num Gconst)
  (L, jsDiv L (.num 4.4482216152605))

/-- The text `fmtLift` produces: the `"-- <unit>"` placeholder, or a value
rounded by `toFixed(decimals)` together with the `" (0)"` annotation flag
used for negative lift. -/
inductive LiftText where
  | undef
  | shown (value : ℚ) (negAnnotated : Bool)
deriving DecidableEq

/-- `fmtLift` from the page script: `"-- <unit>"` exactly when the value is
not finite, otherwise the value at the requested precision, annotated when
negative. -/
def fmtLift (val : JSNum) (decimals : ℕ) : LiftText :=
  match val with
  | .nan => .undef
  | .num v => .shown (roundTo decimals v) (decide (v < 0))

/-- C7: the pressure unit normalizer divides by 100 above 2000, multiplies by
100 below 50, passes values in `[50, 2000]` through unchanged, and is
therefore idempotent on the hPa band. -/
theorem claimC7_scalePressure (p : ℚ) :
    (2000 < p → scalePressureToHectoPascal p = p / 100) ∧
    (p < 50 → scalePressureToHectoPascal p = p * 100) ∧
    (50 ≤ p → p ≤ 2000 → scalePressureToHectoPascal p = p) ∧
    (50 ≤ p → p ≤ 2000 →
      scalePressureToHectoPascal (scalePressureToHectoPascal p) =
        scalePressureToHectoPascal p) := by
  refine ⟨?_, ?_, ?_, ?_⟩
  · intro h
    simp [scalePressureToHectoPascal, h]
  · intro h
    have h2 : ¬ (p > 2000) := by linarith
    simp [scalePressureToHectoPascal, h, h2]
  · intro h1 h2
    have h3 : ¬ (p > 2000) := by linarith
    have h4 : ¬ (p < 50) := by linarith
    simp [scalePressureToHectoPascal, h3, h4]
  · intro h1 h2
    have h3 : ¬ (p > 2000) := by linarith
    have h4 : ¬ (p < 50) := by linarith
    simp [scalePressureToHectoPascal, h3, h4]

/-- Witness for C7 at `p = 1013`. -/
theorem claimC7_scalePressure_witness :
    (50 : ℚ) ≤ 1013 ∧ (1013 : ℚ) ≤ 2000 ∧
      scalePressureToHectoPascal 1013 = 1013 := by
  refine ⟨by norm_num, by norm_num, ?_⟩
  exact (claimC7_scalePressure 1013).2.2.1 (by norm_num) (by norm_num)

/-- C2 counterexample: the FastBlink level is not a 4 Hz square wave. A 4 Hz
square wave with equal high/low times is constant on 125 ms half-periods
(some phase shift of `(t / 125) % 2`), but the implemented level toggles
twice within 100 ms (true at 50 ms, false at 100 ms, true at 150 ms), so no
phase makes the claim hold. -/
theorem claimC2_counterexample :
    ¬ ∃ phase : ℕ, ∀ t : ℕ,
      serviceReadyLedLevel .blinkFast t =
        decide (((t + phase) / 125) % 2 = 1) := by
  rintro ⟨p, h⟩
  have e1 : serviceReadyLedLevel .blinkFast 50 = true := by decide
  have e2 : serviceReadyLedLevel .blinkFast 100 = false := by decide
  have e3 : serviceReadyLedLevel .blinkFast 150 = true := by decide
  have h1 : ((50 + p) / 125) % 2 = 1 := by
    have hx := h 50
    rw [e1] at hx
    exact of_decide_eq_true hx.symm
  have h2 : ¬ ((100 + p) / 125) % 2 = 1 := by
    have hx := h 100
    rw [e2] at hx
    exact of_decide_eq_false hx.symm
  have h3 : ((150 + p) / 125) % 2 = 1 := by
    have hx := h 150
    rw [e3] at hx
    exact of_decide_eq_true hx.symm
  have hab : (50 + p) / 125 ≤ (100 + p) / 125 :=
    Nat.div_le_div_right (by omega)
  have hbc : (100 + p) / 125 ≤ (150 + p) / 125 :=
    Nat.div_le_div_right (by omega)
  have hca : (150 + p) / 125 ≤ (50 + p) / 125 + 1 := by
    calc (150 + p) / 125 ≤ (50 + p + 125) / 125 :=
          Nat.div_le_div_right (by omega)
      _ = (50 + p) / 125 + 1 := Nat.add_div_right _ (by norm_num)
  generalize (50 + p) / 125 = a at h1 hab hca
  generalize (100 + p) / 125 = b at h2 hab hbc
  generalize (150 + p) / 125 = c at h3 hbc hca
  omega

/-- C2 (amended): the FastBlink level is a square wave of period 100 ms
(10 Hz), 50 ms low followed by 50 ms high in each cycle: the level is high
exactly when `t % 100 ≥ 50`, and the waveform repeats every 100 ms. -/
theorem claimC2_fastBlink (t : ℕ) :
    (serviceReadyLedLevel .blinkFast t = decide (50 ≤ t % 100)) ∧
    serviceReadyLedLevel .blinkFast (t + 100) =
      serviceReadyLedLevel .blinkFast t := by
  constructor
  · simp only [serviceReadyLedLevel, decide_eq_decide]
    omega
  · simp only [serviceReadyLedLevel, decide_eq_decide]
    omega

/-- C3: the overheat hysteresis enters Overheated exactly at `envF ≥ 200`,
returns to Normal exactly at `envF ≤ 195`, performs no transition strictly
inside the 195–200 dead band, and the input trace
`199, 200, 199.9, 195.1, 195, 194` transitions only at the 200 and 195
crossings. -/
theorem claimC3_overheatHysteresis (f : ℚ) :
    (overheatStep false f = true ↔ OVERHEAT_ON_F ≤ f) ∧
    (overheatStep true f = false ↔ f ≤ OVERHEAT_OFF_F) ∧
    (∀ ov : Bool, OVERHEAT_OFF_F < f → f < OVERHEAT_ON_F →
      overheatStep ov f = ov) ∧
    List.scanl overheatStep false [199, 200, 199.9, 195.1, 195, 194] =
      [false, false, true, true, true, false, false] := by
  refine ⟨?_, ?_, ?_, ?_⟩
  · by_cases h : OVERHEAT_ON_F ≤ f <;> simp [overheatStep, h]
  · by_cases h : f ≤ OVERHEAT_OFF_F <;> simp [overheatStep, h]
  · intro ov h1 h2
    have hno : ¬ OVERHEAT_ON_F ≤ f := not_le.mpr h2
    have hnf : ¬ f ≤ OVERHEAT_OFF_F := not_le.mpr h1
    cases ov <;> simp [overheatStep, hno, hnf]
  · norm_num [List.scanl, overheatStep, OVERHEAT_ON_F, OVERHEAT_OFF_F]

/-- Witness for C3 at the dead-band temperature 197 °F. -/
theorem claimC3_witness :
    OVERHEAT_OFF_F < (197 : ℚ) ∧ (197 : ℚ) < OVERHEAT_ON_F ∧
      overheatStep true 197 = true := by
  refine ⟨by norm_num [OVERHEAT_OFF_F], by norm_num [OVERHEAT_ON_F], ?_⟩
  exact (claimC3_overheatHysteresis 197).2.2.1 true
    (by norm_num [OVERHEAT_OFF_F]) (by norm_num [OVERHEAT_ON_F])

/-- C5: every snapshot build takes the ambient temperature from the DHT store
with tag `"DHT"` whenever the DHT temperature is valid, and otherwise from
the MPL store with tag `"MPL"`; the choice is a function of the store at
build time only, so a DHT value becoming valid flips the tag on the very
next build. -/
theorem claimC5_ambientFallback (st : SensorStore) (now : ℕ) :
    (∀ v, st.dhtTempC = some v → ambC st = some v ∧ ambSrc st = "DHT") ∧
    (st.dhtTempC = none → ambC st = st.mplTempC ∧ ambSrc st = "MPL") ∧
    List.lookup "ambientSource" (buildTelemetryJson st now) =
      some (.str (ambSrc st)) ∧
    List.lookup "ambientTempF" (buildTelemetryJson st now) =
      some (jnum 1 ((ambC st).map c2f)) := by
  refine ⟨?_, ?_, rfl, rfl⟩
  · intro v hv
    simp [ambC, ambSrc, haveDht, hv]
  · intro hv
    simp [ambC, ambSrc, haveDht, hv]

/-- Witness for C5 with a valid DHT reading of 21.5 °C. -/
theorem claimC5_witness :
    ambSrc ⟨none, some 20, none, some (43 / 2), none, none⟩ = "DHT" :=
  ((claimC5_ambientFallback ⟨none, some 20, none, some (43 / 2), none, none⟩
    0).1 (43 / 2) rfl).2

/-- C6: the wire record always emits all seven keys; every absent measurement
is emitted as the explicit literal `null` (never `0`, never a dropped key),
and every present numeric field is rounded to its fixed precision —
envelope/ambient temperature 1 decimal, humidity 0 decimals, pressure 1
decimal, altitude 1 decimal. -/
theorem claimC6_serializer (st : SensorStore) (now : ℕ) :
    (∀ k, k ∈ ["envelopeTempF", "ambientTempF", "humidityPct", "pressurehPa",
        "altitudeM", "ambientSource", "timestamp"] →
      (List.lookup k (buildTelemetryJson st now)).isSome = true) ∧
    (st.envObjC = none →
      List.lookup "envelopeTempF" (buildTelemetryJson st now) = some .null) ∧
    (∀ v, st.envObjC = some v →
      List.lookup "envelopeTempF" (buildTelemetryJson st now) =
        some (.fixed (roundTo 1 (c2f v)) 1)) ∧
    (ambC st = none →
      List.lookup "ambientTempF" (buildTelemetryJson st now) = some .null) ∧
    (∀ v, ambC st = some v →
      List.lookup "ambientTempF" (buildTelemetryJson st now) =
        some (.fixed (roundTo 1 (c2f v)) 1)) ∧
    (st.dhtHum = none →
      List.lookup "humidityPct" (buildTelemetryJson st now) = some .null) ∧
    (∀ v, st.dhtHum = some v →
      List.lookup "humidityPct" (buildTelemetryJson st now) =
        some (.fixed (roundTo 0 v) 0)) ∧
    (st.pres_hPa = none →
      List.lookup "pressurehPa" (buildTelemetryJson st now) = some .null) ∧
    (∀ v, st.pres_hPa = some v →
      List.lookup "pressurehPa" (buildTelemetryJson st now) =
        some (.fixed (roundTo 1 v) 1)) ∧
    (st.alt_m = none →
      List.lookup "altitudeM" (buildTelemetryJson st now) = some .null) ∧
    (∀ v, st.alt_m = some v →
      List.lookup "altitudeM" (buildTelemetryJson st now) =
        some (.fixed (roundTo 1 v) 1)) := by
  refine ⟨?_, ?_, ?_, ?_, ?_, ?_, ?_, ?_, ?_, ?_, ?_⟩
  · intro k hk
    fin_cases hk <;> rfl
  · intro h
    simp [buildTelemetryJson, jnum, h, List.lookup]
  · intro v h
    simp [buildTelemetryJson, jnum, h, List.lookup]
  · intro h
    simp [buildTelemetryJson, jnum, h, List.lookup]
  · intro v h
    simp [buildTelemetryJson, jnum, h, List.lookup]
  · intro h
    simp [buildTelemetryJson, jnum, h, List.lookup]
  · intro v h
    simp [buildTelemetryJson, jnum, h, List.lookup]
  · intro h
    simp [buildTelemetryJson, jnum, h, List.lookup]
  · intro v h
    simp [buildTelemetryJson, jnum, h, List.lookup]
  · intro h
    simp [buildTelemetryJson, jnum, h, List.lookup]
  · intro v h
    simp [buildTelemetryJson, jnum, h, List.lookup]

/-- Witness for C6: a store with a pressure reading of 1013.25 hPa and no
altitude emits the rounded pressure and an explicit `null` altitude. -/
theorem claimC6_witness :
    List.lookup "pressurehPa"
        (buildTelemetryJson ⟨none, none, some 1013.25, none, none, none⟩ 5) =
      some (.fixed (roundTo 1 1013.25) 1) ∧
    List.lookup "altitudeM"
        (buildTelemetryJson ⟨none, none, some 1013.25, none, none, none⟩ 5) =
      some .null := by
  constructor
  · exact (claimC6_serializer ⟨none, none, some 1013.25, none, none, none⟩
      5).2.2.2.2.2.2.2.2.1 1013.25 rfl
  · exact (claimC6_serializer ⟨none, none, some 1013.25, none, none, none⟩
      5).2.2.2.2.2.2.2.2.2.1 rfl

/-- C9: one DHT poll stores temperature and humidity together or not at all:
an attempt is accepted exactly when its temperature and humidity are both
non-NaN and the humidity lies in `[0, 100]`; the first accepted attempt (of
at most 3) overwrites both stored values with that attempt's pair, no
accepted attempt leaves them untouched, and whenever the stored pair
changes the stored humidity is an in-range value from the same attempt as
the stored temperature. -/
theorem claimC9_dhtAtomic (a : DhtAttempt) (attempts : ℕ → DhtAttempt)
    (stored : Option ℚ × Option ℚ) :
    (readDhtOnceOk a = true ↔
      (∃ t, a.tC = some t) ∧ ∃ h, a.rh = some h ∧ 0 ≤ h ∧ h ≤ 100) ∧
    ((∀ i, i < 3 → readDhtOnceOk (attempts i) = false) →
      dhtPoll attempts stored = stored) ∧
    (∀ i, i < 3 → (∀ j, j < i → readDhtOnceOk (attempts j) = false) →
      readDhtOnceOk (attempts i) = true →
      dhtPoll attempts stored = ((attempts i).tC, (attempts i).rh)) ∧
    (dhtPoll attempts stored ≠ stored →
      ∃ i, i < 3 ∧ readDhtOnceOk (attempts i) = true ∧
        dhtPoll attempts stored = ((attempts i).tC, (attempts i).rh) ∧
        ∃ h, (attempts i).rh = some h ∧ 0 ≤ h ∧ h ≤ 100) := by
  have hrange : List.range 3 = [0, 1, 2] := rfl
  have hok : ∀ b : DhtAttempt, readDhtOnceOk b = true ↔
      (∃ t, b.tC = some t) ∧ ∃ h, b.rh = some h ∧ 0 ≤ h ∧ h ≤ 100 := by
    intro b
    obtain ⟨bt, bh⟩ := b
    cases bt <;> cases bh <;>
      simp [readDhtOnceOk, and_assoc]
  refine ⟨hok a, ?_, ?_, ?_⟩
  · intro hall
    have h0 := hall 0 (by norm_num)
    have h1 := hall 1 (by norm_num)
    have h2 := hall 2 (by norm_num)
    simp [dhtPoll, hrange, List.find?, h0, h1, h2]
  · intro i hi hprev hoki
    interval_cases i
    · simp [dhtPoll, hrange, List.find?, hoki]
    · have h0 := hprev 0 (by norm_num)
      simp [dhtPoll, hrange, List.find?, h0, hoki]
    · have h0 := hprev 0 (by norm_num)
      have h1 := hprev 1 (by norm_num)
      simp [dhtPoll, hrange, List.find?, h0, h1, hoki]
  · intro hne
    rcases hfind : (List.range 3).find? (fun i => readDhtOnceOk (attempts i))
      with _ | i
    · exfalso
      apply hne
      simp [dhtPoll, hfind]
    · have hoki : readDhtOnceOk (attempts i) = true := by
        simpa using List.find?_some hfind
      have hmem : i ∈ List.range 3 := List.mem_of_find?_eq_some hfind
      have hi : i < 3 := List.mem_range.mp hmem
      obtain ⟨-, h, hh, hh0, hh100⟩ := (hok (attempts i)).mp hoki
      exact ⟨i, hi, hoki, by simp [dhtPoll, hfind], h, hh, hh0, hh100⟩

/-- Witness for C9: three failed attempts (NaN humidity) leave a stored pair
unchanged. -/
theorem claimC9_witness :
    dhtPoll (fun _ => ⟨some 21, none⟩) (some 20, some 55) =
      (some 20, some 55) :=
  (claimC9_dhtAtomic ⟨some 21, none⟩ (fun _ => ⟨some 21, none⟩)
    (some 20, some 55)).2.1 (fun _ _ => rfl)

/-- In a time-sorted history, every sample surviving the front eviction pass
is at least as recent as the cutoff. -/
theorem mem_dropWhile_lt_ge (c : ℤ) :
    ∀ l : List HistSample, l.Pairwise (fun a b => a.t ≤ b.t) →
      ∀ x ∈ l.dropWhile (fun s => decide (s.t < c)), c ≤ x.t := by
  intro l
  induction l with
  | nil => intro _ x hx; simp at hx
  | cons a l ih =>
    intro hp x hx
    rw [List.dropWhile_cons] at hx
    by_cases ha : a.t < c
    · rw [if_pos (by simpa using ha)] at hx
      exact ih (List.pairwise_cons.mp hp).2 x hx
    · rw [if_neg (by simpa using ha)] at hx
      rcases List.mem_cons.mp hx with h | h
      · rw [h]
        exact le_of_not_lt ha
      · exact le_trans (le_of_not_lt ha) ((List.pairwise_cons.mp hp).1 x h)

/-- A sample at or after the cutoff is never evicted by the front pass. -/
theorem mem_dropWhile_of_le (c : ℤ) :
    ∀ (l : List HistSample) (x : HistSample), x ∈ l → c ≤ x.t →
      x ∈ l.dropWhile (fun s => decide (s.t < c)) := by
  intro l
  induction l with
  | nil => simp
  | cons a l ih =>
    intro x hx hcx
    rw [List.dropWhile_cons]
    by_cases ha : a.t < c
    · rw [if_pos (by simpa using ha)]
      rcases List.mem_cons.mp hx with h | h
      · exact absurd (lt_of_le_of_lt (h ▸ hcx) ha) (lt_irrefl c)
      · exact ih x h hcx
    · rw [if_neg (by simpa using ha)]
      exact hx

/-- C8: after an ingest at time `ts` into a time-sorted history, no retained
sample is strictly older than `ts − horizon`, and samples exactly at the
cutoff survive; the 5-minute test (samples at 0, 60, …, 360 s, read at
360 s) retains exactly the samples with `t ≥ 60 s`. -/
theorem claimC8_historyWindow (tempHist : List HistSample) (ts : ℤ)
    (ambF envF : Option ℚ) (tempWindowMs : ℤ)
    (hsorted : tempHist.Pairwise (fun a b => a.t ≤ b.t))
    (hpast : ∀ s ∈ tempHist, s.t ≤ ts) :
    (∀ s ∈ pushTempSample tempHist ts ambF envF tempWindowMs,
      ts - tempWindowMs ≤ s.t) ∧
    (∀ s ∈ tempHist, ts - tempWindowMs ≤ s.t →
      s ∈ pushTempSample tempHist ts ambF envF tempWindowMs) ∧
    List.map (fun s => s.t)
        (List.foldl (fun h t => pushTempSample h t none none 300000) []
          [0, 60000, 120000, 180000, 240000, 300000, 360000]) =
      [60000, 120000, 180000, 240000, 300000, 360000] := by
  refine ⟨?_, ?_, by decide⟩
  · intro s hs
    have hsorted2 : List.Pairwise (fun a b : HistSample => a.t ≤ b.t)
        (tempHist ++ [(⟨ts, ambF, envF⟩ : HistSample)]) := by
      rw [List.pairwise_append]
      refine ⟨hsorted, List.pairwise_singleton _ _, ?_⟩
      intro a ha b hb
      rcases List.mem_singleton.mp hb with rfl
      exact hpast a ha
    exact mem_dropWhile_lt_ge (ts - tempWindowMs) _ hsorted2 s hs
  · intro s hs hle
    exact mem_dropWhile_of_le (ts - tempWindowMs) _ s
      (List.mem_append.mpr (Or.inl hs)) hle

/-- Witness for C8: a one-sample sorted history at `t = 0`, ingest at
`ts = 1000` with a 300 s horizon, retains the old sample. -/
theorem claimC8_witness :
    (⟨0, none, none⟩ : HistSample) ∈
      pushTempSample [⟨0, none, none⟩] 1000 none none 300000 := by
  refine (claimC8_historyWindow [⟨0, none, none⟩] 1000 none none 300000
    (List.pairwise_singleton _ _) ?_).2.1 ⟨0, none, none⟩ (by simp)
    (by norm_num)
  intro s hs
  rcases List.mem_singleton.mp hs with rfl
  norm_num

/-- C4: the smoothed vertical speed is updated as
`v ← 0.7·v + 0.3·((alt_now − alt_prev)/dt)` only when both the previous and
the new altitude are present and `dt > 0`; any snapshot rejected by those
guards leaves the smoothed value unchanged; and from the zero-initialized
estimator, the altitude sequence (0 m, t = 0 s), (10 m, t = 1 s) yields
exactly 3.0 m/s. -/
theorem claimC4_verticalSpeed (st : ClientState) (pkt : Packet) (now : ℚ) :
    (pkt.altitudeM = none →
      (updateTelemetry st pkt now).verticalSpeed = st.verticalSpeed) ∧
    (st.altitudeM = none →
      (updateTelemetry st pkt now).verticalSpeed = st.verticalSpeed) ∧
    (∀ pa a, st.altitudeM = some pa → pkt.altitudeM = some a →
      ((jsOrNum pkt.timestamp now - st.timestamp) / 1000 ≤ 0 →
        (updateTelemetry st pkt now).verticalSpeed = st.verticalSpeed) ∧
      (0 < (jsOrNum pkt.timestamp now - st.timestamp) / 1000 →
        (updateTelemetry st pkt now).verticalSpeed =
          0.7 * st.verticalSpeed +
            0.3 * ((a - pa) /
              ((jsOrNum pkt.timestamp now - st.timestamp) / 1000)))) ∧
    (updateTelemetry
        (updateTelemetry ⟨none, 0, 0, none, none⟩ ⟨some 0, some 0⟩ 0)
        ⟨some 10, some 1000⟩ 0).verticalSpeed = 3 := by
  refine ⟨?_, ?_, ?_, ?_⟩
  · intro h
    obtain ⟨salt, sts, svs, sinit, sfs⟩ := st
    cases salt <;> simp [updateTelemetry, h]
  · intro h
    obtain ⟨palt, pts⟩ := pkt
    cases palt <;> simp [updateTelemetry, h]
  · intro pa a hpa hna
    constructor
    · intro hdt
      simp [updateTelemetry, hpa, hna, not_lt.mpr hdt]
    · intro hdt
      simp [updateTelemetry, hpa, hna, hdt]
  · norm_num [updateTelemetry, jsOrNum]

/-- Witness for C4: a packet with a missing altitude leaves the smoothed
value (2 m/s) unchanged. -/
theorem claimC4_witness :
    (updateTelemetry ⟨some 5, 0, 2, some 5, none⟩ ⟨none, some 1000⟩
        0).verticalSpeed = 2 :=
  (claimC4_verticalSpeed ⟨some 5, 0, 2, some 5, none⟩ ⟨none, some 1000⟩
    0).1 rfl

/-- C10: the reset command always zeroes the smoothed vertical speed and
restarts the flight timer, and sets the baseline to the current altitude
when present and to null otherwise. -/
theorem claimC10_resetFlight (st : ClientState) (now : ℚ) :
    (resetFlight st now).verticalSpeed = 0 ∧
    (resetFlight st now).flightStartMs = some now ∧
    (resetFlight st now).initialAlt = st.altitudeM := by
  refine ⟨rfl, rfl, ?_⟩
  obtain ⟨salt, sts, svs, sinit, sfs⟩ := st
  cases salt <;> simp [resetFlight]

/-- Unless its (possibly defaulted) temperature input sits exactly at
absolute zero, `densityAir` returns a finite number. -/
theorem densityAir_num (p t : JSNum) (ht : t ≠ .num (-459.67)) :
    ∃ q, densityAir p t = .num q := by
  have h20 : jsOr t 20 ≠ (-459.67 : ℚ) := by
    cases t with
    | nan =>
      simp only [jsOr]
      norm_num
    | num v =>
      by_cases hv : v = 0
      · simp only [jsOr, hv, if_pos rfl]
        norm_num
      · simp only [jsOr, if_neg hv]
        intro hc
        exact ht (by rw [hc])
  have hT : Rconst * c2k (f2c (jsOr t 20)) ≠ 0 := by
    intro hc
    rcases mul_eq_zero.mp hc with hR | hk
    · exact absurd hR (by norm_num [Rconst])
    · apply h20
      unfold c2k f2c at hk
      linarith
  refine ⟨jsOr p 1013.25 * 100 / (Rconst * c2k (f2c (jsOr t 20))), ?_⟩
  simp [densityAir, jsDiv, hT]

/-- C1 counterexample: with the ambient temperature absent (and envelope
150 °F, pressure 1013.25 hPa, volume 100 m³ present), the lift is still
rendered as a computed number — `densityAir` substitutes its defaults — and
not as the `"--"` placeholder the claim requires. -/
theorem claimC1_counterexample :
    fmtLift (computeLift .nan (.num 150) (.num 1013.25) 100).2 2 ≠
      .undef := by
  norm_num [fmtLift, computeLift, densityAir, jsOr, jsDiv, jsMul, jsSub,
    Rconst, Gconst, c2k, f2c]
  exact fun h => LiftText.noConfusion h

/-- C1 (amended): when an input of the lift computation is absent,
`densityAir` substitutes defaults (1013.25 hPa, 20 °F), so the lift is
still reported as a computed number; it never degrades to the `"--"`
placeholder (which would require a non-finite result, impossible as long as
no present temperature input is exactly −459.67 °F). -/
theorem claimC1_liftDefaults (ambF envF pressureHpa : JSNum) (V : ℚ)
    (d : ℕ) :
    (ambF = .nan ∨ envF = .nan ∨ pressureHpa = .nan) →
    ambF ≠ .num (-459.67) → envF ≠ .num (-459.67) →
    fmtLift (computeLift ambF envF pressureHpa V).1 d ≠ .undef ∧
    fmtLift (computeLift ambF envF pressureHpa V).2 d ≠ .undef := by
  intro _ hamb henv
  obtain ⟨qo, ho⟩ := densityAir_num pressureHpa ambF hamb
  obtain ⟨qi, hi⟩ := densityAir_num pressureHpa envF henv
  have hpair : computeLift ambF envF pressureHpa V =
      (.num ((qo - qi) * V * Gconst),
       .num ((qo - qi) * V * Gconst / 4.4482216152605)) := by
    norm_num [computeLift, ho, hi, jsSub, jsMul, jsDiv]
  rw [hpair]
  exact ⟨by simp [fmtLift], by simp [fmtLift]⟩

/-- Witness for C1 (amended): pressure absent, temperatures present. -/
theorem claimC1_witness :
    fmtLift (computeLift (.num 80) (.num 212) .nan 50).2 2 ≠ .undef :=
  (claimC1_liftDefaults (.num 80) (.num 212) .nan 50 2
    (Or.inr (Or.inr rfl)) (by norm_num) (by norm_num)).2

end ESP32Telemetry
